import Mathlib

/-!
# Daisyworld simulation core — shallow embedding

This file embeds the Daisyworld simulation core (the `Daisy`, `Planet` and
`DaisyworldModel` classes of the repository's model source, in the variant
that carries the numerical-stability safeguards: temperature clamping to
[250K, 350K] with 15K damping, survival floor 0.9, per-step coverage delta
clamp 0.05, extinction floor 0.1, local-temperature gap cap 15K) and proves
the spec's testable properties against it.

Modelling conventions:
* JavaScript numbers are modelled as exact rationals (`ℚ`); decimal literals
  of the source become the corresponding rationals.
* The two calls to `Math.pow` with non-integer exponents (the fourth root in
  `Planet.calculateTemperature` and `Math.pow(normalizedDiff, 1.8)` in
  `calculateDaisyGrowthRate`) produce irrational values approximated in
  floating point; they are modelled as oracle inputs constrained by generous
  approximation bounds (`trawApprox`, `Pow18Approx`) that any faithful
  floating-point evaluation satisfies.  All properties proved below hold for
  every oracle satisfying those bounds, and every refutation exhibits a
  concrete oracle satisfying them.
* JavaScript truthiness tests on numbers (`if (this.temperature && ...)`)
  are modelled as `≠ 0`; an absent configuration field is `Option.none`, and
  the `a || b` fallback idiom is `jsOr` (absent or zero falls through).
* Callbacks are modelled by opaque identifiers (`ℕ`); a notification is the
  list of (callback id, payload) pairs emitted in invocation order.
-/

namespace Daisyworld

/-- Clamp to [0,1]: `Math.max(0, Math.min(1, x))`. -/
def clamp01 (x : ℚ) : ℚ := max 0 (min 1 x)

/-- The daisy kind tag (`'white'` / `'black'` strings in the source). -/
inductive DaisyType where
  | white
  | black
deriving DecidableEq, Repr

/-- Source `class Daisy`: one daisy population (type, albedo, coverage, localTemp). -/
@[ext]
structure Daisy where
  type : DaisyType
  albedo : ℚ
  coverage : ℚ
  localTemp : ℚ
deriving DecidableEq, Repr

/-- Source `Daisy.setCoverage`: stores the coverage clamped into [0,1]. -/
def Daisy.setCoverage (d : Daisy) (c : ℚ) : Daisy :=
  { d with coverage := clamp01 c }

/-- Source `Daisy.setLocalTemp`: stores the local temperature verbatim. -/
def Daisy.setLocalTemp (d : Daisy) (t : ℚ) : Daisy :=
  { d with localTemp := t }

/-- Source `class Planet`: bare-soil albedo, temperature, luminosity, blended albedo. -/
@[ext]
structure Planet where
  bareSoilAlbedo : ℚ
  temperature : ℚ
  solarLuminosity : ℚ
  albedo : ℚ
deriving DecidableEq, Repr

/-- Stefan–Boltzmann constant `5.67e-8` of the source. -/
def stefanBoltzmann : ℚ := 567 / 10 ^ 10

/-- Source `Planet.setTemperature`: stores verbatim. -/
def Planet.setTemperature (p : Planet) (t : ℚ) : Planet :=
  { p with temperature := t }

/-- Source `Planet.setSolarLuminosity`: clamps to `≥ 0`. -/
def Planet.setSolarLuminosity (p : Planet) (l : ℚ) : Planet :=
  { p with solarLuminosity := max 0 l }

/-- Source `Planet.setAlbedo`: clamps into [0,1]. -/
def Planet.setAlbedo (p : Planet) (a : ℚ) : Planet :=
  { p with albedo := clamp01 a }

/-- The absorbed radiation of `Planet.calculateTemperature`:
`effectiveSolarConstant * (1 - albedo) / 4` with the source's effective solar
constant `3000 * solarLuminosity` W/m². -/
def Planet.absorbedRadiation (p : Planet) : ℚ :=
  3000 * p.solarLuminosity * (1 - p.albedo) / 4

/-- Admissibility bound for the oracle value `traw` standing for the
floating-point `Math.pow(absorbedRadiation / stefanBoltzmann, 0.25)`: it is
nonnegative and within 1 Kelvin of the exact fourth root (vastly looser than
double precision allows). -/
def Planet.trawApprox (p : Planet) (traw : ℚ) : Prop :=
  0 ≤ traw ∧ (traw - 1) ^ 4 ≤ p.absorbedRadiation / stefanBoltzmann ∧
    p.absorbedRadiation / stefanBoltzmann ≤ (traw + 1) ^ 4

instance (p : Planet) (traw : ℚ) : Decidable (p.trawApprox traw) := by
  unfold Planet.trawApprox; infer_instance

/-- The post-processing of `Planet.calculateTemperature` applied to the raw
Stefan–Boltzmann temperature `traw`: clamp into [250,350] when out of band,
otherwise dampen jumps larger than 20K (guarded by JS truthiness of the
stored previous temperature) to a 15K move, otherwise adopt `traw`. -/
def calculateTemperatureCore (prev traw : ℚ) : ℚ :=
  if traw < 250 ∨ 350 < traw then
    max 250 (min 350 traw)
  else if prev ≠ 0 ∧ 20 < |traw - prev| then
    (if prev < traw then prev + 15 else prev - 15)
  else
    traw

/-- Source `Planet.calculateTemperature`, with the floating-point fourth root given
as the oracle `traw` (see `Planet.trawApprox`). -/
def Planet.calculateTemperature (p : Planet) (traw : ℚ) : ℚ :=
  calculateTemperatureCore p.temperature traw

/-- Source `Planet.calculateLocalTemperature`: `T + q * (planetAlbedo - surfaceAlbedo)`
with `q = 20`. -/
def Planet.calculateLocalTemperature (p : Planet) (surfaceAlbedo : ℚ) : ℚ :=
  p.temperature + 20 * (p.albedo - surfaceAlbedo)

/-- The configuration record accepted by the `DaisyworldModel` constructor;
a `none` field is an absent (JS `undefined`) field, defaulted on read. -/
structure Params where
  solarLuminosity : Option ℚ := none
  bareSoilAlbedo : Option ℚ := none
  initialTemp : Option ℚ := none
  whiteDaisyInit : Option ℚ := none
  blackDaisyInit : Option ℚ := none
  whiteDaisyAlbedo : Option ℚ := none
  blackDaisyAlbedo : Option ℚ := none
  deathRate : Option ℚ := none
  optimalTemp : Option ℚ := none
  simulationSpeed : Option ℚ := none
deriving DecidableEq, Repr

/-- The JS `a || b` fallback on an optional numeric field: an absent or zero
(falsy) value falls through to `b`. -/
def jsOr (a : Option ℚ) (b : ℚ) : ℚ :=
  match a with
  | some v => if v = 0 then b else v
  | none => b

/-- The engine payload dispatched to step subscribers. -/
structure TimeStepData where
  time : ℕ
  temperature : ℚ
  whiteDaisyCoverage : ℚ
  blackDaisyCoverage : ℚ
  planetAlbedo : ℚ
  solarLuminosity : ℚ
  whiteDaisyTemp : ℚ
  blackDaisyTemp : ℚ
deriving DecidableEq, Repr

/-- Source `class DaisyworldModel`: the simulation engine state. -/
@[ext]
structure DaisyworldModel where
  planet : Planet
  whiteDaisy : Daisy
  blackDaisy : Daisy
  deathRate : ℚ
  optimalTemp : ℚ
  simulationSpeed : ℚ
  running : Bool
  time : ℕ
  maxGrowthRate : ℚ
  minGrowthTemp : ℚ
  maxGrowthTemp : ℚ
  temperatureRegulationFactor : ℚ
  timeStepCallbacks : List ℕ
deriving DecidableEq, Repr

namespace DaisyworldModel

/-- Source `getBareSoilCoverage`: `1 - whiteCoverage - blackCoverage`. -/
def getBareSoilCoverage (m : DaisyworldModel) : ℚ :=
  1 - m.whiteDaisy.coverage - m.blackDaisy.coverage

/-- Source `getWhiteDaisyCoverage`. -/
def getWhiteDaisyCoverage (m : DaisyworldModel) : ℚ := m.whiteDaisy.coverage

/-- Source `getBlackDaisyCoverage`. -/
def getBlackDaisyCoverage (m : DaisyworldModel) : ℚ := m.blackDaisy.coverage

/-- Source `getPlanetTemperature`. -/
def getPlanetTemperature (m : DaisyworldModel) : ℚ := m.planet.temperature

/-- Source `getWhiteDaisyTemperature`. -/
def getWhiteDaisyTemperature (m : DaisyworldModel) : ℚ := m.whiteDaisy.localTemp

/-- Source `getBlackDaisyTemperature`. -/
def getBlackDaisyTemperature (m : DaisyworldModel) : ℚ := m.blackDaisy.localTemp

/-- Source `calculatePlanetAlbedo`: coverage-weighted blend of the three albedos. -/
def calculatePlanetAlbedo (m : DaisyworldModel) : ℚ :=
  m.whiteDaisy.albedo * m.whiteDaisy.coverage +
    m.blackDaisy.albedo * m.blackDaisy.coverage +
    m.planet.bareSoilAlbedo * m.getBareSoilCoverage

/-- Source `updatePlanetAlbedo`: `planet.setAlbedo(calculatePlanetAlbedo())`. -/
def updatePlanetAlbedo (m : DaisyworldModel) : DaisyworldModel :=
  { m with planet := m.planet.setAlbedo m.calculatePlanetAlbedo }

/-- Source `setWhiteDaisyCoverage`: clamped store, then albedo recompute. -/
def setWhiteDaisyCoverage (m : DaisyworldModel) (c : ℚ) : DaisyworldModel :=
  updatePlanetAlbedo { m with whiteDaisy := m.whiteDaisy.setCoverage c }

/-- Source `setBlackDaisyCoverage`: clamped store, then albedo recompute. -/
def setBlackDaisyCoverage (m : DaisyworldModel) (c : ℚ) : DaisyworldModel :=
  updatePlanetAlbedo { m with blackDaisy := m.blackDaisy.setCoverage c }

/-- Source `setSolarLuminosity` (delegates to the planet's clamp to `≥ 0`). -/
def setSolarLuminosity (m : DaisyworldModel) (l : ℚ) : DaisyworldModel :=
  { m with planet := m.planet.setSolarLuminosity l }

/-- Source `setSimulationSpeed`: clamps into [0.1, 10]. -/
def setSimulationSpeed (m : DaisyworldModel) (v : ℚ) : DaisyworldModel :=
  { m with simulationSpeed := max (1/10) (min 10 v) }

/-- Source `updatePlanetTemperature`: adopt `planet.calculateTemperature` (with the
fourth-root oracle `traw`). -/
def updatePlanetTemperature (m : DaisyworldModel) (traw : ℚ) : DaisyworldModel :=
  { m with planet := m.planet.setTemperature (m.planet.calculateTemperature traw) }

/-- Source `updateLocalTemperatures`: raw local temperatures from the albedo gap,
regulation factor applied, gap capped at 15K, and the results clamped back
into [250, 350] before storing. -/
def updateLocalTemperatures (m : DaisyworldModel) : DaisyworldModel :=
  let whiteRaw := m.planet.calculateLocalTemperature m.whiteDaisy.albedo
  let blackRaw := m.planet.calculateLocalTemperature m.blackDaisy.albedo
  let planetTemp := m.planet.temperature
  let whiteTempDiff := min 15 (m.temperatureRegulationFactor * (planetTemp - whiteRaw))
  let blackTempDiff := min 15 (m.temperatureRegulationFactor * (blackRaw - planetTemp))
  let whiteLocal := max 250 (min 350 (planetTemp - whiteTempDiff))
  let blackLocal := max 250 (min 350 (planetTemp + blackTempDiff))
  { m with
    whiteDaisy := m.whiteDaisy.setLocalTemp whiteLocal
    blackDaisy := m.blackDaisy.setLocalTemp blackLocal }

/-- Admissibility of the oracle `g` standing for `Math.pow(·, 1.8)` on [0,1]:
for `x ∈ [0,1]`, `x^1.8` lies between `x^2` and `x` (double rounding is far
inside these bounds, and `pow(0, 1.8) = 0`, `pow(1, 1.8) = 1` exactly). -/
def Pow18Approx (g : ℚ → ℚ) : Prop :=
  ∀ x : ℚ, 0 ≤ x → x ≤ 1 → x * x ≤ g x ∧ g x ≤ x

/-- Source `calculateDaisyGrowthRate`: zero outside the viable Celsius band, else
`max(0, maxGrowthRate * (1 - normalizedDiff^1.8))` with
`normalizedDiff = diff / max(minGrowthTemp, maxGrowthTemp)`; the
floating-point power is the oracle `g`. -/
def calculateDaisyGrowthRate (m : DaisyworldModel) (g : ℚ → ℚ)
    (temperature : ℚ) : ℚ :=
  let tempC := temperature - 27315/100
  let optimalTempC := m.optimalTemp - 27315/100
  let diff := |tempC - optimalTempC|
  if tempC < optimalTempC - m.minGrowthTemp ∨
      optimalTempC + m.maxGrowthTemp < tempC then
    0
  else
    let range := max m.minGrowthTemp m.maxGrowthTemp
    let normalizedDiff := diff / range
    max 0 (m.maxGrowthRate * (1 - g normalizedDiff))

/-- The survival factor of `updateDaisyPopulation`:
`Math.max(0.9, 1 - deathRate)`. -/
def survivalFactor (m : DaisyworldModel) : ℚ := max (9/10) (1 - m.deathRate)

/-- The final stability clamps of `updateDaisyPopulation`: limit the change
from `currentCoverage` to at most 0.05 in either direction, then force a
0.1 floor when a previously nonzero population would fall below it. -/
def applyStabilityClamps (currentCoverage newCoverage : ℚ) : ℚ :=
  let clamped :=
    if currentCoverage + 1/20 < newCoverage then currentCoverage + 1/20
    else if newCoverage < currentCoverage - 1/20 then currentCoverage - 1/20
    else newCoverage
  if 0 < currentCoverage ∧ clamped < 1/10 then 1/10 else clamped

/-- The new coverage computed by `updateDaisyPopulation` for a daisy with
current coverage `d.coverage` and local temperature `d.localTemp`: base
growth rate, type preference modifier, low-population rescue, logistic
growth on the free area, survival-floored deaths, per-step delta clamp of
0.05, and the 0.1 extinction floor. -/
def updateDaisyPopulationCoverage (m : DaisyworldModel) (g : ℚ → ℚ)
    (d : Daisy) : ℚ :=
  let currentCoverage := d.coverage
  let rate0 := m.calculateDaisyGrowthRate g d.localTemp
  let planetTemp := m.planet.temperature
  let rate1 :=
    match d.type with
    | DaisyType.white =>
        if m.optimalTemp < planetTemp then
          rate0 * (1 + (min 20 (planetTemp - m.optimalTemp)) / 20)
        else if planetTemp < m.optimalTemp - 10 then
          rate0 * (1 - (min 20 (m.optimalTemp - 10 - planetTemp)) / 40)
        else rate0
    | DaisyType.black =>
        if planetTemp < m.optimalTemp then
          rate0 * (1 + (min 20 (m.optimalTemp - planetTemp)) / 20)
        else if m.optimalTemp + 10 < planetTemp then
          rate0 * (1 - (min 20 (planetTemp - (m.optimalTemp + 10))) / 40)
        else rate0
  let rate2 :=
    if currentCoverage < 1/5 then rate1 * (1 + (1/5 - currentCoverage) * 20)
    else rate1
  let availableArea := m.getBareSoilCoverage
  let newGrowth := rate2 * currentCoverage * availableArea
  let deaths := (1 - m.survivalFactor) * currentCoverage
  let newCoverage := currentCoverage + newGrowth - deaths
  applyStabilityClamps currentCoverage newCoverage

/-- Source `updateDaisyPopulation(whiteDaisy)` as a state transformer. -/
def updateWhitePopulation (m : DaisyworldModel) (g : ℚ → ℚ) : DaisyworldModel :=
  { m with whiteDaisy :=
      m.whiteDaisy.setCoverage (m.updateDaisyPopulationCoverage g m.whiteDaisy) }

/-- Source `updateDaisyPopulation(blackDaisy)` as a state transformer (runs after the
white update inside `step`, so it sees the white daisy's new coverage). -/
def updateBlackPopulation (m : DaisyworldModel) (g : ℚ → ℚ) : DaisyworldModel :=
  { m with blackDaisy :=
      m.blackDaisy.setCoverage (m.updateDaisyPopulationCoverage g m.blackDaisy) }

end DaisyworldModel

/-- The oracle for one `step()` call: the `Math.pow(·, 1.8)` approximation
used by both growth-rate evaluations and the fourth-root value `traw` used by
the temperature update. -/
structure Oracle where
  g : ℚ → ℚ
  traw : ℚ

namespace DaisyworldModel

/-- The state part of `step()`: population updates (white then black), albedo
recompute, temperature update, local-temperature update, time increment. -/
def stepModel (o : Oracle) (m : DaisyworldModel) : DaisyworldModel :=
  let m1 := (m.updateWhitePopulation o.g).updateBlackPopulation o.g
  let m2 := m1.updatePlanetAlbedo
  let m3 := m2.updatePlanetTemperature o.traw
  let m4 := m3.updateLocalTemperatures
  { m4 with time := m4.time + 1 }

/-- The payload `step()` passes to `notifyTimeStep`. -/
def mkTimeStepData (m : DaisyworldModel) : TimeStepData :=
  { time := m.time
    temperature := m.planet.temperature
    whiteDaisyCoverage := m.whiteDaisy.coverage
    blackDaisyCoverage := m.blackDaisy.coverage
    planetAlbedo := m.planet.albedo
    solarLuminosity := m.planet.solarLuminosity
    whiteDaisyTemp := m.whiteDaisy.localTemp
    blackDaisyTemp := m.blackDaisy.localTemp }

/-- Source `notifyTimeStep`: the invocation trace, one `(callback, data)` pair per
registered callback, in list (= subscription) order. -/
def notifyTimeStep (callbacks : List ℕ) (data : TimeStepData) :
    List (ℕ × TimeStepData) :=
  callbacks.map fun c => (c, data)

/-- Source `step()`: the new state together with the subscriber invocation trace. -/
def step (o : Oracle) (m : DaisyworldModel) :
    DaisyworldModel × List (ℕ × TimeStepData) :=
  let m' := stepModel o m
  (m', notifyTimeStep m'.timeStepCallbacks (mkTimeStepData m'))

/-- Source `onTimeStep`: appends the callback to the subscriber list. -/
def onTimeStep (m : DaisyworldModel) (cb : ℕ) : DaisyworldModel :=
  { m with timeStepCallbacks := m.timeStepCallbacks ++ [cb] }

/-- Source `start()`. -/
def start (m : DaisyworldModel) : DaisyworldModel := { m with running := true }

/-- Source `pause()`. -/
def pause (m : DaisyworldModel) : DaisyworldModel := { m with running := false }

/-- The `DaisyworldModel` constructor: defaults applied, planet and daisies
created, growth constants set, then the priming pass — albedo recompute,
temperature forced to the configured initial value, local temperatures. -/
def construct (p : Params) : DaisyworldModel :=
  let solarLuminosity := p.solarLuminosity.getD 1
  let bareSoilAlbedo := p.bareSoilAlbedo.getD (1/2)
  let initialTemp := p.initialTemp.getD 295
  let whiteDaisyInit := p.whiteDaisyInit.getD (3/10)
  let blackDaisyInit := p.blackDaisyInit.getD (3/10)
  let whiteDaisyAlbedo := p.whiteDaisyAlbedo.getD (3/4)
  let blackDaisyAlbedo := p.blackDaisyAlbedo.getD (1/4)
  let m0 : DaisyworldModel :=
    { planet :=
        { bareSoilAlbedo := bareSoilAlbedo
          temperature := initialTemp
          solarLuminosity := max 0 solarLuminosity
          albedo := bareSoilAlbedo }
      whiteDaisy :=
        { type := DaisyType.white, albedo := whiteDaisyAlbedo
          coverage := whiteDaisyInit, localTemp := 0 }
      blackDaisy :=
        { type := DaisyType.black, albedo := blackDaisyAlbedo
          coverage := blackDaisyInit, localTemp := 0 }
      deathRate := p.deathRate.getD (1/5)
      optimalTemp := p.optimalTemp.getD 295
      simulationSpeed := min (1/2) (p.simulationSpeed.getD 1)
      running := false
      time := 0
      maxGrowthRate := 1
      minGrowthTemp := 20
      maxGrowthTemp := 30
      temperatureRegulationFactor := 1
      timeStepCallbacks := [] }
  let m1 := m0.updatePlanetAlbedo
  let m2 := { m1 with planet := m1.planet.setTemperature initialTemp }
  m2.updateLocalTemperatures

/-- Source `reset(params)`: pause, copy every engine-owned field from a freshly
constructed model, zero the clock, redo the priming pass — with the
temperature forced to `params.initialTemp || optimalTemp` — and keep the
existing subscriber list. -/
def reset (m : DaisyworldModel) (p : Params) : DaisyworldModel :=
  let newModel := construct p
  let m1 : DaisyworldModel :=
    { planet := newModel.planet
      whiteDaisy := newModel.whiteDaisy
      blackDaisy := newModel.blackDaisy
      deathRate := newModel.deathRate
      optimalTemp := newModel.optimalTemp
      simulationSpeed := newModel.simulationSpeed
      running := false
      time := 0
      maxGrowthRate := newModel.maxGrowthRate
      minGrowthTemp := newModel.minGrowthTemp
      maxGrowthTemp := newModel.maxGrowthTemp
      temperatureRegulationFactor := newModel.temperatureRegulationFactor
      timeStepCallbacks := m.timeStepCallbacks }
  let m2 := m1.updatePlanetAlbedo
  let resetTemp := jsOr p.initialTemp newModel.optimalTemp
  let m3 := { m2 with planet := m2.planet.setTemperature resetTemp }
  m3.updateLocalTemperatures

end DaisyworldModel

/-- One public engine operation, for stating reachability-style invariants. -/
inductive Action where
  | doStep (o : Oracle)
  | setWhite (c : ℚ)
  | setBlack (c : ℚ)
  | setLuminosity (l : ℚ)
  | setSpeed (v : ℚ)
  | doStart
  | doPause
  | subscribe (cb : ℕ)
  | doReset (p : Params)

/-- Apply one public operation to the engine state. -/
def Action.apply (m : DaisyworldModel) : Action → DaisyworldModel
  | Action.doStep o => DaisyworldModel.stepModel o m
  | Action.setWhite c => m.setWhiteDaisyCoverage c
  | Action.setBlack c => m.setBlackDaisyCoverage c
  | Action.setLuminosity l => m.setSolarLuminosity l
  | Action.setSpeed v => m.setSimulationSpeed v
  | Action.doStart => m.start
  | Action.doPause => m.pause
  | Action.subscribe cb => m.onTimeStep cb
  | Action.doReset p => m.reset p

/-- Run a sequence of public operations. -/
def runActions (m : DaisyworldModel) (acts : List Action) : DaisyworldModel :=
  acts.foldl Action.apply m

/-- The temperature `reset p` forces: `params.initialTemp || optimalTemp`
(with the optimal-temperature default applied). -/
def resetForcedTemp (p : Params) : ℚ := jsOr p.initialTemp (p.optimalTemp.getD 295)

/-- A public operation that keeps the planet temperature inside [250, 350]
whenever it was already there: every operation except a `reset` whose forced
temperature lies outside the band. -/
def Action.tempOK : Action → Prop
  | Action.doReset p => 250 ≤ resetForcedTemp p ∧ resetForcedTemp p ≤ 350
  | _ => True

/-! ## Helper lemmas -/

theorem clamp01_nonneg (x : ℚ) : 0 ≤ clamp01 x := le_max_left 0 _

theorem clamp01_le_one (x : ℚ) : clamp01 x ≤ 1 :=
  max_le (by norm_num) (min_le_left 1 x)

theorem clamp01_eq_self {x : ℚ} (h0 : 0 ≤ x) (h1 : x ≤ 1) : clamp01 x = x := by
  unfold clamp01
  rw [min_eq_right h1, max_eq_right h0]

theorem clamp01_le_of_le {x c : ℚ} (h : x ≤ c) (hc : 0 ≤ c) : clamp01 x ≤ c :=
  max_le hc (le_trans (min_le_right 1 x) h)

theorem le_clamp01_of_le {x c : ℚ} (h : c ≤ x) (hc : c ≤ 1) : c ≤ clamp01 x :=
  le_trans (le_min hc h) (le_max_right 0 _)

/-- A concrete admissible stand-in for `Math.pow(·, 1.8)` used by explicit
refutations and witnesses: squaring, which satisfies `Pow18Approx`. -/
def sqFn (x : ℚ) : ℚ := x * x

theorem sqFn_pow18 : DaisyworldModel.Pow18Approx sqFn := by
  intro x h0 h1
  refine ⟨le_refl _, ?_⟩
  show x * x ≤ x
  nlinarith

/-- The stored temperature of a freshly constructed model is the configured
initial temperature. -/
theorem construct_temperature (p : Params) :
    (DaisyworldModel.construct p).planet.temperature = p.initialTemp.getD 295 := rfl

/-- Lemma: `calculateTemperatureCore` maps an in-band previous temperature into the
band [250, 350], whatever the raw radiative value is. -/
theorem calculateTemperatureCore_mem {prev : ℚ} (traw : ℚ)
    (h1 : 250 ≤ prev) (h2 : prev ≤ 350) :
    250 ≤ calculateTemperatureCore prev traw ∧
      calculateTemperatureCore prev traw ≤ 350 := by
  unfold calculateTemperatureCore
  split_ifs with hband hdamp hdir
  · exact ⟨le_max_left _ _, max_le (by norm_num) (min_le_left _ _)⟩
  · rw [abs_of_pos (by linarith)] at hdamp
    push_neg at hband
    constructor <;> linarith [hband.2]
  · push_neg at hdir
    rw [abs_of_nonpos (by linarith)] at hdamp
    push_neg at hband
    constructor <;> linarith [hband.1, hdamp.2]
  · push_neg at hband
    exact hband

/-! ## C1: coverage conservation -/

/-- C1: for every engine state (so in particular every reachable one, after
any number of `step()` calls), the white coverage plus the black coverage
plus the value returned by `getBareSoilCoverage` is exactly 1 — the code
computes the bare-soil coverage as the complement `1 - white - black`, so
the sum is 1 identically (exactly, hence within the 1e-9 tolerance). -/
theorem coverage_conservation (m : DaisyworldModel) :
    m.getWhiteDaisyCoverage + m.getBlackDaisyCoverage + m.getBareSoilCoverage = 1 := by
  unfold DaisyworldModel.getWhiteDaisyCoverage DaisyworldModel.getBlackDaisyCoverage
    DaisyworldModel.getBareSoilCoverage
  ring

/-! ## C10: bare-soil coverage can be negative at the public interface -/

/-- C10: the coverage setters clamp each daisy individually into [0,1] but
never enforce `white + black ≤ 1`, and `getBareSoilCoverage` returns exactly
`1 - white - black`; after `setWhiteDaisyCoverage(0.8)` followed by
`setBlackDaisyCoverage(0.8)` on a default-constructed engine,
`getBareSoilCoverage()` returns -0.6, a negative value. -/
theorem bareSoil_negative :
    (((DaisyworldModel.construct {}).setWhiteDaisyCoverage (4/5)).setBlackDaisyCoverage
        (4/5)).getBareSoilCoverage = -(3/5) ∧
      (((DaisyworldModel.construct {}).setWhiteDaisyCoverage (4/5)).setBlackDaisyCoverage
        (4/5)).getBareSoilCoverage < 0 := by
  constructor <;>
    norm_num [DaisyworldModel.construct, DaisyworldModel.setWhiteDaisyCoverage,
      DaisyworldModel.setBlackDaisyCoverage, DaisyworldModel.updatePlanetAlbedo,
      DaisyworldModel.calculatePlanetAlbedo, DaisyworldModel.getBareSoilCoverage,
      DaisyworldModel.updateLocalTemperatures, Daisy.setCoverage, Daisy.setLocalTemp,
      Planet.setAlbedo, Planet.setTemperature, Planet.calculateLocalTemperature, clamp01]

/-! ## Projection lemmas (all definitional) -/

theorem stepModel_planet_temperature (o : Oracle) (m : DaisyworldModel) :
    (DaisyworldModel.stepModel o m).planet.temperature =
      calculateTemperatureCore m.planet.temperature o.traw := rfl

theorem stepModel_planet_albedo (o : Oracle) (m : DaisyworldModel) :
    (DaisyworldModel.stepModel o m).planet.albedo =
      clamp01 (DaisyworldModel.calculatePlanetAlbedo
        ((m.updateWhitePopulation o.g).updateBlackPopulation o.g)) := rfl

theorem stepModel_whiteDaisy_coverage (o : Oracle) (m : DaisyworldModel) :
    (DaisyworldModel.stepModel o m).whiteDaisy.coverage =
      ((m.updateWhitePopulation o.g).updateBlackPopulation o.g).whiteDaisy.coverage := rfl

theorem stepModel_blackDaisy_coverage (o : Oracle) (m : DaisyworldModel) :
    (DaisyworldModel.stepModel o m).blackDaisy.coverage =
      ((m.updateWhitePopulation o.g).updateBlackPopulation o.g).blackDaisy.coverage := rfl

theorem updateWhitePopulation_coverage (m : DaisyworldModel) (g : ℚ → ℚ) :
    (m.updateWhitePopulation g).whiteDaisy.coverage =
      clamp01 (m.updateDaisyPopulationCoverage g m.whiteDaisy) := rfl

theorem updateBlackPopulation_coverage (m : DaisyworldModel) (g : ℚ → ℚ) :
    (m.updateBlackPopulation g).blackDaisy.coverage =
      clamp01 (m.updateDaisyPopulationCoverage g m.blackDaisy) := rfl

theorem reset_temperature (m : DaisyworldModel) (p : Params) :
    (m.reset p).planet.temperature = resetForcedTemp p := rfl

/-! ## C2: temperature bounds -/

/-- C2 counterexample: the band `250 ≤ temperature ≤ 350` does not hold for
every reachable state — constructing the engine with `initialTemp = 1000`
(the constructor forces the stored temperature to the configured value,
unclamped) yields a reachable state, at zero `step()` calls, whose
temperature is 1000 K > 350 K. -/
theorem temperature_bounds_counterexample :
    (DaisyworldModel.construct { initialTemp := some 1000 }).planet.temperature = 1000 ∧
      ¬((DaisyworldModel.construct
          { initialTemp := some 1000 }).planet.temperature ≤ 350) := by
  refine ⟨rfl, ?_⟩
  rw [construct_temperature]
  norm_num

theorem Action.apply_temp_mem {m : DaisyworldModel} {a : Action} (ha : a.tempOK)
    (h1 : 250 ≤ m.planet.temperature) (h2 : m.planet.temperature ≤ 350) :
    250 ≤ (a.apply m).planet.temperature ∧ (a.apply m).planet.temperature ≤ 350 := by
  cases a with
  | doStep o =>
      rw [Action.apply, stepModel_planet_temperature]
      exact calculateTemperatureCore_mem o.traw h1 h2
  | setWhite c => exact ⟨h1, h2⟩
  | setBlack c => exact ⟨h1, h2⟩
  | setLuminosity l => exact ⟨h1, h2⟩
  | setSpeed v => exact ⟨h1, h2⟩
  | doStart => exact ⟨h1, h2⟩
  | doPause => exact ⟨h1, h2⟩
  | subscribe cb => exact ⟨h1, h2⟩
  | doReset p =>
      rw [Action.apply, reset_temperature]
      exact ha

theorem runActions_temp_mem (acts : List Action) (m : DaisyworldModel)
    (hOK : ∀ a ∈ acts, a.tempOK)
    (h1 : 250 ≤ m.planet.temperature) (h2 : m.planet.temperature ≤ 350) :
    250 ≤ (runActions m acts).planet.temperature ∧
      (runActions m acts).planet.temperature ≤ 350 := by
  induction acts generalizing m with
  | nil => exact ⟨h1, h2⟩
  | cons a rest ih =>
      rw [runActions, List.foldl_cons]
      have hstep := Action.apply_temp_mem (hOK a (List.mem_cons_self a rest)) h1 h2
      exact ih (a.apply m) (fun b hb => hOK b (List.mem_cons_of_mem a hb))
        hstep.1 hstep.2

/-- C2 amended: the temperature band is an invariant of the engine once it
holds initially — for every configuration whose (forced) initial temperature
lies in [250, 350], and every sequence of public operations in which any
`reset` likewise forces an in-band temperature, the planet temperature of
the resulting state lies in [250, 350]; in particular every per-step
temperature update maps an in-band temperature to an in-band temperature
(for arbitrary raw radiative values).  As stated the claim is false, since a
constructor or reset `initialTemp` outside the band is stored unclamped. -/
theorem temperature_bounds (p : Params) (acts : List Action)
    (h1 : 250 ≤ p.initialTemp.getD 295) (h2 : p.initialTemp.getD 295 ≤ 350)
    (hOK : ∀ a ∈ acts, a.tempOK) :
    250 ≤ (runActions (DaisyworldModel.construct p) acts).planet.temperature ∧
      (runActions (DaisyworldModel.construct p) acts).planet.temperature ≤ 350 := by
  have hc := construct_temperature p
  exact runActions_temp_mem acts _ hOK (by rw [hc]; exact h1) (by rw [hc]; exact h2)

/-- Witness for the amended C2 theorem at a concrete configuration and a
concrete two-action run. -/
theorem temperature_bounds_witness :
    (250 ≤ (Params.mk none none none none none none none none none none).initialTemp.getD 295 ∧
        (Params.mk none none none none none none none none none none).initialTemp.getD 295 ≤ 350) ∧
      250 ≤ (runActions (DaisyworldModel.construct
          (Params.mk none none none none none none none none none none))
          [Action.doStep ⟨sqFn, 300⟩, Action.setWhite (1/2)]).planet.temperature ∧
        (runActions (DaisyworldModel.construct
          (Params.mk none none none none none none none none none none))
          [Action.doStep ⟨sqFn, 300⟩, Action.setWhite (1/2)]).planet.temperature ≤ 350 := by
  refine ⟨⟨by norm_num, by norm_num⟩, ?_⟩
  refine temperature_bounds _ _ (by norm_num) (by norm_num) ?_
  intro a ha
  simp only [List.mem_cons, List.mem_singleton] at ha
  rcases ha with rfl | rfl | h
  · trivial
  · trivial
  · cases h

/-! ## C3: the calculateTemperature algorithm -/

/-- The spec's description of `calculateTemperature`'s post-processing of the
raw Stefan–Boltzmann value, stated from the claim's words for comparison with
the code: clamp when out of [250, 350], else dampen any jump of more than
20 K to a 15 K move toward `T_raw`, else adopt `T_raw` — with no proviso on
the previous temperature. -/
def calculateTemperatureClaimed (prev traw : ℚ) : ℚ :=
  if traw < 250 ∨ 350 < traw then
    max 250 (min 350 traw)
  else if 20 < |traw - prev| then
    (if prev < traw then prev + 15 else prev - 15)
  else
    traw

/-- C3 counterexample: at `previousTemperature = 0` (reachable: configuring
`initialTemp = 0` stores temperature 0) and an in-band raw value 300, the
code returns 300 (the damping branch is skipped by the JS truthiness guard
`if (this.temperature && ...)`), while the claim's description returns
`0 + 15 = 15`. -/
theorem calculateTemperature_claim_counterexample :
    (Planet.mk (1/2) 0 1 (1/2)).calculateTemperature 300 = 300 ∧
      calculateTemperatureClaimed 0 300 = 15 ∧ ((300 : ℚ) ≠ 15) := by
  refine ⟨?_, ?_, by norm_num⟩
  · unfold Planet.calculateTemperature calculateTemperatureCore
    norm_num
  · unfold calculateTemperatureClaimed
    norm_num [abs]

/-- C3 amended: for every nonzero previous temperature the function behaves
exactly as the claim describes (clamp out-of-band raw values into
[250, 350]; dampen jumps above 20 K to exactly 15 K toward the raw value;
otherwise adopt the raw value); when the stored previous temperature is 0
the damping check is skipped by a JS truthiness guard and the raw value is
adopted. -/
theorem calculateTemperature_matches_claim (p : Planet) (traw : ℚ)
    (h : p.temperature ≠ 0) :
    p.calculateTemperature traw = calculateTemperatureClaimed p.temperature traw := by
  unfold Planet.calculateTemperature calculateTemperatureCore calculateTemperatureClaimed
  simp [h]

/-- Witness for the amended C3 theorem at `prev = 295`, `traw = 300`. -/
theorem calculateTemperature_matches_claim_witness :
    (Planet.mk (1/2) 295 1 (1/2)).temperature ≠ 0 ∧
      (Planet.mk (1/2) 295 1 (1/2)).calculateTemperature 300 =
        calculateTemperatureClaimed 295 300 :=
  ⟨by norm_num, calculateTemperature_matches_claim (Planet.mk (1/2) 295 1 (1/2)) 300
    (by norm_num)⟩

/-! ## C4: albedo blend correctness -/

theorem calculatePlanetAlbedo_blend (m : DaisyworldModel)
    (hwa : m.whiteDaisy.albedo = 3/4) (hba : m.blackDaisy.albedo = 1/4)
    (hsa : m.planet.bareSoilAlbedo = 1/2)
    (hw0 : 0 ≤ m.whiteDaisy.coverage) (hw1 : m.whiteDaisy.coverage ≤ 1)
    (hb0 : 0 ≤ m.blackDaisy.coverage) (hb1 : m.blackDaisy.coverage ≤ 1) :
    clamp01 m.calculatePlanetAlbedo =
      m.whiteDaisy.coverage * (3/4) + m.blackDaisy.coverage * (1/4) +
        (1 - m.whiteDaisy.coverage - m.blackDaisy.coverage) * (1/2) := by
  have hval : m.calculatePlanetAlbedo =
      m.whiteDaisy.coverage * (3/4) + m.blackDaisy.coverage * (1/4) +
        (1 - m.whiteDaisy.coverage - m.blackDaisy.coverage) * (1/2) := by
    unfold DaisyworldModel.calculatePlanetAlbedo DaisyworldModel.getBareSoilCoverage
    rw [hwa, hba, hsa]
    ring
  rw [hval]
  exact clamp01_eq_self (by nlinarith) (by nlinarith)

theorem calculatePlanetAlbedo_bounds (m : DaisyworldModel)
    (hwa : m.whiteDaisy.albedo = 3/4) (hba : m.blackDaisy.albedo = 1/4)
    (hsa : m.planet.bareSoilAlbedo = 1/2)
    (hw0 : 0 ≤ m.whiteDaisy.coverage) (hw1 : m.whiteDaisy.coverage ≤ 1)
    (hb0 : 0 ≤ m.blackDaisy.coverage) (hb1 : m.blackDaisy.coverage ≤ 1) :
    1/4 ≤ clamp01 m.calculatePlanetAlbedo ∧ clamp01 m.calculatePlanetAlbedo ≤ 3/4 := by
  rw [calculatePlanetAlbedo_blend m hwa hba hsa hw0 hw1 hb0 hb1]
  constructor <;> nlinarith

/-- C4: with the default albedos (white 0.75, black 0.25, bare soil 0.5) and
coverages in [0,1], every albedo recompute — whether performed inside
`step()`, or as the side effect of `setWhiteDaisyCoverage` /
`setBlackDaisyCoverage` — stores exactly
`w·0.75 + b·0.25 + (1 − w − b)·0.5` as the planet albedo (the [0,1] write
clamp never engages since the blend lies in [0.25, 0.75]); and with
`w = b = 0.2` the stored albedo is exactly 0.5. -/
theorem albedo_blend (m : DaisyworldModel)
    (hwa : m.whiteDaisy.albedo = 3/4) (hba : m.blackDaisy.albedo = 1/4)
    (hsa : m.planet.bareSoilAlbedo = 1/2) :
    (0 ≤ m.whiteDaisy.coverage → m.whiteDaisy.coverage ≤ 1 →
      0 ≤ m.blackDaisy.coverage → m.blackDaisy.coverage ≤ 1 →
      m.updatePlanetAlbedo.planet.albedo =
        m.whiteDaisy.coverage * (3/4) + m.blackDaisy.coverage * (1/4) +
          (1 - m.whiteDaisy.coverage - m.blackDaisy.coverage) * (1/2)) ∧
    (∀ c : ℚ, 0 ≤ m.blackDaisy.coverage → m.blackDaisy.coverage ≤ 1 →
      (m.setWhiteDaisyCoverage c).planet.albedo =
        clamp01 c * (3/4) + m.blackDaisy.coverage * (1/4) +
          (1 - clamp01 c - m.blackDaisy.coverage) * (1/2)) ∧
    (∀ c : ℚ, 0 ≤ m.whiteDaisy.coverage → m.whiteDaisy.coverage ≤ 1 →
      (m.setBlackDaisyCoverage c).planet.albedo =
        m.whiteDaisy.coverage * (3/4) + clamp01 c * (1/4) +
          (1 - m.whiteDaisy.coverage - clamp01 c) * (1/2)) ∧
    (∀ o : Oracle,
      (DaisyworldModel.stepModel o m).planet.albedo =
        (DaisyworldModel.stepModel o m).whiteDaisy.coverage * (3/4) +
          (DaisyworldModel.stepModel o m).blackDaisy.coverage * (1/4) +
          (1 - (DaisyworldModel.stepModel o m).whiteDaisy.coverage -
            (DaisyworldModel.stepModel o m).blackDaisy.coverage) * (1/2)) ∧
    (((DaisyworldModel.construct {}).setWhiteDaisyCoverage
        (1/5)).setBlackDaisyCoverage (1/5)).planet.albedo = 1/2 := by
  refine ⟨?_, ?_, ?_, ?_, ?_⟩
  · intro hw0 hw1 hb0 hb1
    exact calculatePlanetAlbedo_blend m hwa hba hsa hw0 hw1 hb0 hb1
  · intro c hb0 hb1
    exact calculatePlanetAlbedo_blend _ hwa hba hsa (clamp01_nonneg c)
      (clamp01_le_one c) hb0 hb1
  · intro c hw0 hw1
    exact calculatePlanetAlbedo_blend _ hwa hba hsa hw0 hw1 (clamp01_nonneg c)
      (clamp01_le_one c)
  · intro o
    rw [stepModel_planet_albedo, stepModel_whiteDaisy_coverage,
      stepModel_blackDaisy_coverage]
    exact calculatePlanetAlbedo_blend _ hwa hba hsa (clamp01_nonneg _)
      (clamp01_le_one _) (clamp01_nonneg _) (clamp01_le_one _)
  · norm_num [DaisyworldModel.construct, DaisyworldModel.setWhiteDaisyCoverage,
      DaisyworldModel.setBlackDaisyCoverage, DaisyworldModel.updatePlanetAlbedo,
      DaisyworldModel.calculatePlanetAlbedo, DaisyworldModel.getBareSoilCoverage,
      DaisyworldModel.updateLocalTemperatures, Daisy.setCoverage, Daisy.setLocalTemp,
      Planet.setAlbedo, Planet.setTemperature, Planet.calculateLocalTemperature, clamp01]

/-- Witness for the C4 theorem at the default construction. -/
theorem albedo_blend_witness :
    ((DaisyworldModel.construct {}).whiteDaisy.albedo = 3/4 ∧
        (DaisyworldModel.construct {}).blackDaisy.albedo = 1/4 ∧
        (DaisyworldModel.construct {}).planet.bareSoilAlbedo = 1/2) ∧
      (((DaisyworldModel.construct {}).setWhiteDaisyCoverage
          (1/5)).setBlackDaisyCoverage (1/5)).planet.albedo = 1/2 :=
  ⟨⟨rfl, rfl, rfl⟩, (albedo_blend (DaisyworldModel.construct {}) rfl rfl rfl).2.2.2.2⟩

/-! ## C5: local temperature ordering -/

theorem stepModel_whiteDaisy_localTemp (o : Oracle) (m : DaisyworldModel) :
    (DaisyworldModel.stepModel o m).whiteDaisy.localTemp =
      max 250 (min 350 ((DaisyworldModel.stepModel o m).planet.temperature -
        min 15 (m.temperatureRegulationFactor *
          ((DaisyworldModel.stepModel o m).planet.temperature -
            ((DaisyworldModel.stepModel o m).planet.temperature +
              20 * ((DaisyworldModel.stepModel o m).planet.albedo -
                m.whiteDaisy.albedo)))))) := rfl

theorem stepModel_blackDaisy_localTemp (o : Oracle) (m : DaisyworldModel) :
    (DaisyworldModel.stepModel o m).blackDaisy.localTemp =
      max 250 (min 350 ((DaisyworldModel.stepModel o m).planet.temperature +
        min 15 (m.temperatureRegulationFactor *
          (((DaisyworldModel.stepModel o m).planet.temperature +
              20 * ((DaisyworldModel.stepModel o m).planet.albedo -
                m.blackDaisy.albedo)) -
            (DaisyworldModel.stepModel o m).planet.temperature)))) := rfl

/-- C5 amended: with the default albedos, a nonnegative regulation factor
and an in-band previous planet temperature, every `step()` call leaves
`whiteLocalTemp ≤ planetTemperature ≤ blackLocalTemp`.  The strict ordering
of the claim is false: the 250 K lower clamp on stored local temperatures
(and a vanishing albedo gap at extreme coverages) can collapse
`whiteLocalTemp` onto the planet temperature. -/
theorem local_temperature_ordering (m : DaisyworldModel) (o : Oracle)
    (hwa : m.whiteDaisy.albedo = 3/4) (hba : m.blackDaisy.albedo = 1/4)
    (hsa : m.planet.bareSoilAlbedo = 1/2)
    (hf : 0 ≤ m.temperatureRegulationFactor)
    (h1 : 250 ≤ m.planet.temperature) (h2 : m.planet.temperature ≤ 350) :
    (DaisyworldModel.stepModel o m).whiteDaisy.localTemp ≤
        (DaisyworldModel.stepModel o m).planet.temperature ∧
      (DaisyworldModel.stepModel o m).planet.temperature ≤
        (DaisyworldModel.stepModel o m).blackDaisy.localTemp := by
  obtain ⟨hT1, hT2⟩ : 250 ≤ (DaisyworldModel.stepModel o m).planet.temperature ∧
      (DaisyworldModel.stepModel o m).planet.temperature ≤ 350 := by
    rw [stepModel_planet_temperature]
    exact calculateTemperatureCore_mem o.traw h1 h2
  obtain ⟨hA1, hA2⟩ : 1/4 ≤ (DaisyworldModel.stepModel o m).planet.albedo ∧
      (DaisyworldModel.stepModel o m).planet.albedo ≤ 3/4 := by
    rw [stepModel_planet_albedo]
    exact calculatePlanetAlbedo_bounds _ hwa hba hsa (clamp01_nonneg _)
      (clamp01_le_one _) (clamp01_nonneg _) (clamp01_le_one _)
  constructor
  · rw [stepModel_whiteDaisy_localTemp, hwa]
    have hd0 : 0 ≤ min 15 (m.temperatureRegulationFactor *
        ((DaisyworldModel.stepModel o m).planet.temperature -
          ((DaisyworldModel.stepModel o m).planet.temperature +
            20 * ((DaisyworldModel.stepModel o m).planet.albedo - 3/4)))) :=
      le_min (by norm_num) (mul_nonneg hf (by linarith))
    refine max_le (by linarith) (le_trans (min_le_right _ _) (by linarith))
  · rw [stepModel_blackDaisy_localTemp, hba]
    have hd0 : 0 ≤ min 15 (m.temperatureRegulationFactor *
        (((DaisyworldModel.stepModel o m).planet.temperature +
            20 * ((DaisyworldModel.stepModel o m).planet.albedo - 1/4)) -
          (DaisyworldModel.stepModel o m).planet.temperature)) :=
      le_min (by norm_num) (mul_nonneg hf (by linarith))
    refine le_trans (le_min hT2 (by linarith)) (le_max_right _ _)

/-- Witness for the amended C5 theorem at the default construction. -/
theorem local_temperature_ordering_witness :
    ((DaisyworldModel.construct {}).whiteDaisy.albedo = 3/4 ∧
        0 ≤ (DaisyworldModel.construct {}).temperatureRegulationFactor ∧
        250 ≤ (DaisyworldModel.construct {}).planet.temperature ∧
        (DaisyworldModel.construct {}).planet.temperature ≤ 350) ∧
      (DaisyworldModel.stepModel ⟨sqFn, 300⟩
            (DaisyworldModel.construct {})).whiteDaisy.localTemp ≤
          (DaisyworldModel.stepModel ⟨sqFn, 300⟩
            (DaisyworldModel.construct {})).planet.temperature ∧
        (DaisyworldModel.stepModel ⟨sqFn, 300⟩
            (DaisyworldModel.construct {})).planet.temperature ≤
          (DaisyworldModel.stepModel ⟨sqFn, 300⟩
            (DaisyworldModel.construct {})).blackDaisy.localTemp :=
  ⟨⟨rfl, by
      rw [show (DaisyworldModel.construct {}).temperatureRegulationFactor = 1 from rfl]
      norm_num, by
      rw [construct_temperature]; norm_num, by
      rw [construct_temperature]; norm_num⟩,
    local_temperature_ordering (DaisyworldModel.construct {}) ⟨sqFn, 300⟩ rfl rfl rfl
      (by rw [show (DaisyworldModel.construct {}).temperatureRegulationFactor = 1 from rfl]
          norm_num)
      (by rw [construct_temperature]; norm_num)
      (by rw [construct_temperature]; norm_num)⟩

/-- The configuration of the C5 refutation: full white coverage, no black. -/
def c5Params : Params := { whiteDaisyInit := some 1, blackDaisyInit := some 0 }

/-- The oracle of the C5 refutation: `traw = 243` is admissible for the
planet state at which the temperature update runs (the exact fourth root is
about 242.8 K), and the squaring oracle is an admissible `pow(·, 1.8)`. -/
def c5Oracle : Oracle := ⟨sqFn, 243⟩

/-- C5 counterexample: the claimed strict ordering
`whiteLocalTemp < planetTemperature` fails after one `step()` from the
(default-albedo) coverages `w = 1, b = 0`: the step drives the planet
temperature to the 250 K clamp, and the stored white local temperature is
clamped up to exactly 250 K as well.  The oracle used is admissible
(`Pow18Approx` for the growth power, `trawApprox` at the planet state seen
by the temperature update). -/
theorem local_temperature_ordering_counterexample :
    DaisyworldModel.Pow18Approx sqFn ∧
      ((((DaisyworldModel.construct c5Params).updateWhitePopulation
            sqFn).updateBlackPopulation sqFn).updatePlanetAlbedo).planet.trawApprox
        243 ∧
      ¬((DaisyworldModel.stepModel c5Oracle
            (DaisyworldModel.construct c5Params)).whiteDaisy.localTemp <
          (DaisyworldModel.stepModel c5Oracle
            (DaisyworldModel.construct c5Params)).planet.temperature) := by
  refine ⟨sqFn_pow18, ?_, ?_⟩
  · norm_num [Planet.trawApprox, Planet.absorbedRadiation, stefanBoltzmann,
      DaisyworldModel.construct, DaisyworldModel.updateWhitePopulation,
      DaisyworldModel.updateBlackPopulation,
      DaisyworldModel.updateDaisyPopulationCoverage,
      DaisyworldModel.calculateDaisyGrowthRate, DaisyworldModel.survivalFactor,
      DaisyworldModel.applyStabilityClamps, DaisyworldModel.getBareSoilCoverage,
      DaisyworldModel.updatePlanetAlbedo, DaisyworldModel.calculatePlanetAlbedo,
      DaisyworldModel.updateLocalTemperatures, Daisy.setCoverage, Daisy.setLocalTemp,
      Planet.setAlbedo, Planet.setTemperature, Planet.calculateLocalTemperature,
      clamp01, sqFn, c5Params]
  · norm_num [DaisyworldModel.stepModel, DaisyworldModel.construct,
      DaisyworldModel.updateWhitePopulation, DaisyworldModel.updateBlackPopulation,
      DaisyworldModel.updateDaisyPopulationCoverage,
      DaisyworldModel.calculateDaisyGrowthRate, DaisyworldModel.survivalFactor,
      DaisyworldModel.applyStabilityClamps, DaisyworldModel.getBareSoilCoverage,
      DaisyworldModel.updatePlanetAlbedo, DaisyworldModel.calculatePlanetAlbedo,
      DaisyworldModel.updatePlanetTemperature, DaisyworldModel.updateLocalTemperatures,
      Planet.calculateTemperature, calculateTemperatureCore,
      Daisy.setCoverage, Daisy.setLocalTemp, Planet.setAlbedo, Planet.setTemperature,
      Planet.calculateLocalTemperature, clamp01, sqFn, c5Params, c5Oracle]

/-! ## C6: growth curve peak and boundary -/

/-- The boundary half of the C6 claim, stated from its words over the
default-constructed engine: the growth rate is 0 for every temperature at or
beyond the viable-range edges, i.e. whenever
`T_celsius ≤ optimal_celsius - minGrowthTemp` or
`T_celsius ≥ optimal_celsius + maxGrowthTemp`. -/
def growthBoundaryClaimed : Prop :=
  ∀ g : ℚ → ℚ, DaisyworldModel.Pow18Approx g →
    ∀ T : ℚ,
      (T - 27315/100 ≤ ((DaisyworldModel.construct {}).optimalTemp - 27315/100) -
          (DaisyworldModel.construct {}).minGrowthTemp ∨
        ((DaisyworldModel.construct {}).optimalTemp - 27315/100) +
          (DaisyworldModel.construct {}).maxGrowthTemp ≤ T - 27315/100) →
      (DaisyworldModel.construct {}).calculateDaisyGrowthRate g T = 0

/-- C6 counterexample: the growth rate is not 0 exactly at the lower viable
edge.  With defaults (optimal 295 K, `minGrowthTemp = 20`,
`maxGrowthTemp = 30`) and `T = 275 K` (Celsius offset exactly
`optimal_C - minGrowthTemp`), the early-return guard is strict, so the code
falls through to the curve, whose normalization divides by
`max(minGrowthTemp, maxGrowthTemp) = 30`, giving
`1 - pow(20/30, 1.8) ≥ 1/3 > 0` for every admissible power oracle (5/9 for
the exhibited one). -/
theorem growth_boundary_counterexample : ¬ growthBoundaryClaimed := by
  intro h
  have h275 := h sqFn sqFn_pow18 275 ?_
  · have hval : (DaisyworldModel.construct {}).calculateDaisyGrowthRate sqFn 275 =
        5/9 := by
      norm_num [DaisyworldModel.calculateDaisyGrowthRate, DaisyworldModel.construct,
        DaisyworldModel.updatePlanetAlbedo, DaisyworldModel.calculatePlanetAlbedo,
        DaisyworldModel.getBareSoilCoverage, DaisyworldModel.updateLocalTemperatures,
        Daisy.setCoverage, Daisy.setLocalTemp, Planet.setAlbedo, Planet.setTemperature,
        Planet.calculateLocalTemperature, clamp01, sqFn]
    rw [hval] at h275
    norm_num at h275
  · left
    rw [show (DaisyworldModel.construct {}).optimalTemp = 295 from rfl,
      show (DaisyworldModel.construct {}).minGrowthTemp = 20 from rfl]
    norm_num

/-- C6 amended: with the default growth constants (`maxGrowthRate = 1`,
`minGrowthTemp = 20`, `maxGrowthTemp = 30`), for every admissible power
oracle: the growth rate at exactly the configured optimal temperature is
`maxGrowthRate = 1`; the rate is 0 for every temperature strictly beyond
either viable-range edge, and also exactly at the upper edge
(`optimal + maxGrowthTemp`); but exactly at the lower edge
(`optimal - minGrowthTemp`) the rate is at least 1/3 (positive), because the
curve normalizes by `max(minGrowthTemp, maxGrowthTemp)` rather than the
per-side half-width. -/
theorem growth_peak_and_boundary (m : DaisyworldModel) (g : ℚ → ℚ)
    (hg : DaisyworldModel.Pow18Approx g)
    (hmin : m.minGrowthTemp = 20) (hmax : m.maxGrowthTemp = 30)
    (hrate : m.maxGrowthRate = 1) :
    m.calculateDaisyGrowthRate g m.optimalTemp = 1 ∧
      (∀ T : ℚ,
        (T - 27315/100 < (m.optimalTemp - 27315/100) - m.minGrowthTemp ∨
          (m.optimalTemp - 27315/100) + m.maxGrowthTemp < T - 27315/100) →
        m.calculateDaisyGrowthRate g T = 0) ∧
      m.calculateDaisyGrowthRate g (m.optimalTemp + 30) = 0 ∧
      1/3 ≤ m.calculateDaisyGrowthRate g (m.optimalTemp - 20) := by
  have hg0 : g 0 = 0 := by
    have h := hg 0 le_rfl zero_le_one
    have h1 : (0:ℚ) * 0 = 0 := by norm_num
    rw [h1] at h
    exact le_antisymm h.2 h.1
  have hg1 : g 1 = 1 := by
    have h := hg 1 zero_le_one le_rfl
    have h1 : (1:ℚ) * 1 = 1 := by norm_num
    rw [h1] at h
    exact le_antisymm h.2 h.1
  refine ⟨?_, ?_, ?_, ?_⟩
  · simp only [DaisyworldModel.calculateDaisyGrowthRate, hmin, hmax, hrate]
    rw [if_neg (by push_neg; constructor <;> linarith)]
    norm_num [hg0]
  · intro T hT
    simp only [DaisyworldModel.calculateDaisyGrowthRate, hmin, hmax, hrate] at hT ⊢
    rw [if_pos]
    exact hT
  · simp only [DaisyworldModel.calculateDaisyGrowthRate, hmin, hmax, hrate]
    rw [if_neg (by push_neg; constructor <;> linarith)]
    have hd : |m.optimalTemp + 30 - 27315/100 - (m.optimalTemp - 27315/100)| = 30 := by
      rw [show m.optimalTemp + 30 - 27315/100 - (m.optimalTemp - 27315/100) = 30 by ring]
      norm_num
    rw [hd]
    norm_num [hg1]
  · simp only [DaisyworldModel.calculateDaisyGrowthRate, hmin, hmax, hrate]
    rw [if_neg (by push_neg; constructor <;> linarith)]
    have hd : |m.optimalTemp - 20 - 27315/100 - (m.optimalTemp - 27315/100)| = 20 := by
      rw [show m.optimalTemp - 20 - 27315/100 - (m.optimalTemp - 27315/100) = -20 by ring]
      norm_num
    rw [hd]
    have hgb := hg (20 / max (20:ℚ) 30) (by norm_num) (by norm_num)
    have hmax' : max (20:ℚ) 30 = 30 := by norm_num
    rw [hmax'] at hgb ⊢
    have : 1/3 ≤ 1 * (1 - g (20/30)) := by
      have := hgb.2
      norm_num at this ⊢
      linarith
    exact le_trans this (le_max_right 0 _)

/-- Witness for the amended C6 theorem at the default construction. -/
theorem growth_peak_and_boundary_witness :
    ((DaisyworldModel.construct {}).minGrowthTemp = 20 ∧
        (DaisyworldModel.construct {}).maxGrowthTemp = 30 ∧
        (DaisyworldModel.construct {}).maxGrowthRate = 1) ∧
      (DaisyworldModel.construct {}).calculateDaisyGrowthRate sqFn
          (DaisyworldModel.construct {}).optimalTemp = 1 ∧
        1/3 ≤ (DaisyworldModel.construct {}).calculateDaisyGrowthRate sqFn
          ((DaisyworldModel.construct {}).optimalTemp - 20) :=
  ⟨⟨rfl, rfl, rfl⟩,
    (growth_peak_and_boundary (DaisyworldModel.construct {}) sqFn sqFn_pow18
        rfl rfl rfl).1,
    (growth_peak_and_boundary (DaisyworldModel.construct {}) sqFn sqFn_pow18
        rfl rfl rfl).2.2.2⟩

/-! ## C7: per-surface coverage update stability clamps -/

theorem applyStabilityClamps_spec (cov n : ℚ) (h0 : 0 ≤ cov) (h1 : cov ≤ 1) :
    cov - 1/20 ≤ clamp01 (DaisyworldModel.applyStabilityClamps cov n) ∧
      (clamp01 (DaisyworldModel.applyStabilityClamps cov n) ≤ cov + 1/20 ∨
        clamp01 (DaisyworldModel.applyStabilityClamps cov n) = 1/10) ∧
      (0 < cov → 1/10 ≤ clamp01 (DaisyworldModel.applyStabilityClamps cov n)) := by
  simp only [DaisyworldModel.applyStabilityClamps]
  set cl := if cov + 1/20 < n then cov + 1/20
    else if n < cov - 1/20 then cov - 1/20 else n with hcl
  have hcl_lb : cov - 1/20 ≤ cl := by
    rw [hcl]
    split_ifs with h h2
    · linarith
    · linarith
    · linarith [not_lt.mp h2]
  have hcl_ub : cl ≤ cov + 1/20 := by
    rw [hcl]
    split_ifs with h h2
    · linarith
    · linarith
    · linarith [not_lt.mp h]
  split_ifs with hfl
  · have h110 : clamp01 (1/10 : ℚ) = 1/10 :=
      clamp01_eq_self (by norm_num) (by norm_num)
    rw [h110]
    exact ⟨by linarith [hfl.2], Or.inr rfl, fun _ => le_refl _⟩
  · push_neg at hfl
    exact ⟨le_clamp01_of_le hcl_lb (by linarith),
      Or.inl (clamp01_le_of_le hcl_ub (by linarith)),
      fun hpos => le_clamp01_of_le (hfl hpos) (by norm_num)⟩

/-- C7: in every step and for each daisy (the step's two population updates
store `clamp01(updateDaisyPopulationCoverage ...)` for the white and the
black daisy respectively), the death increment is
`(1 - max(0.9, 1 - deathRate)) * coverage` — a survival floor of 0.9, inside
the claimed 0.7–0.9 range — and the stored new coverage (for a previous
coverage in [0,1]) moves by at most 0.05 in either direction except that a
previously nonzero population falling below the 0.1 extinction floor (inside
the claimed 0.01–0.1 range) is forced to exactly that floor, never lower. -/
theorem population_update_clamps (m : DaisyworldModel) (g : ℚ → ℚ) (d : Daisy)
    (h0 : 0 ≤ d.coverage) (h1 : d.coverage ≤ 1) :
    ((1 - m.survivalFactor) * d.coverage =
        (1 - max (9/10) (1 - m.deathRate)) * d.coverage) ∧
      (m.updateWhitePopulation g).whiteDaisy.coverage =
        clamp01 (m.updateDaisyPopulationCoverage g m.whiteDaisy) ∧
      (m.updateBlackPopulation g).blackDaisy.coverage =
        clamp01 (m.updateDaisyPopulationCoverage g m.blackDaisy) ∧
      d.coverage - 1/20 ≤ clamp01 (m.updateDaisyPopulationCoverage g d) ∧
      (clamp01 (m.updateDaisyPopulationCoverage g d) ≤ d.coverage + 1/20 ∨
        clamp01 (m.updateDaisyPopulationCoverage g d) = 1/10) ∧
      (0 < d.coverage → 1/10 ≤ clamp01 (m.updateDaisyPopulationCoverage g d)) := by
  refine ⟨rfl, rfl, rfl, ?_, ?_, ?_⟩
  · simp only [DaisyworldModel.updateDaisyPopulationCoverage]
    exact (applyStabilityClamps_spec d.coverage _ h0 h1).1
  · simp only [DaisyworldModel.updateDaisyPopulationCoverage]
    exact (applyStabilityClamps_spec d.coverage _ h0 h1).2.1
  · simp only [DaisyworldModel.updateDaisyPopulationCoverage]
    exact (applyStabilityClamps_spec d.coverage _ h0 h1).2.2

/-- Witness for the C7 theorem at the default construction's white daisy. -/
theorem population_update_clamps_witness :
    (0 ≤ (DaisyworldModel.construct {}).whiteDaisy.coverage ∧
        (DaisyworldModel.construct {}).whiteDaisy.coverage ≤ 1) ∧
      (DaisyworldModel.construct {}).whiteDaisy.coverage - 1/20 ≤
          clamp01 ((DaisyworldModel.construct {}).updateDaisyPopulationCoverage sqFn
            (DaisyworldModel.construct {}).whiteDaisy) ∧
        (0 < (DaisyworldModel.construct {}).whiteDaisy.coverage →
          1/10 ≤ clamp01 ((DaisyworldModel.construct {}).updateDaisyPopulationCoverage
            sqFn (DaisyworldModel.construct {}).whiteDaisy)) :=
  ⟨⟨(by rw [show (DaisyworldModel.construct {}).whiteDaisy.coverage = 3/10 from rfl]; norm_num),
      (by rw [show (DaisyworldModel.construct {}).whiteDaisy.coverage = 3/10 from rfl]; norm_num)⟩,
    (population_update_clamps (DaisyworldModel.construct {}) sqFn
        (DaisyworldModel.construct {}).whiteDaisy
        (by rw [show (DaisyworldModel.construct {}).whiteDaisy.coverage = 3/10 from rfl]; norm_num)
        (by rw [show (DaisyworldModel.construct {}).whiteDaisy.coverage = 3/10 from rfl]; norm_num)).2.2.2.1,
    (population_update_clamps (DaisyworldModel.construct {}) sqFn
        (DaisyworldModel.construct {}).whiteDaisy
        (by rw [show (DaisyworldModel.construct {}).whiteDaisy.coverage = 3/10 from rfl]; norm_num)
        (by rw [show (DaisyworldModel.construct {}).whiteDaisy.coverage = 3/10 from rfl]; norm_num)).2.2.2.2.2⟩

/-! ## C8: reset versus fresh construction -/

/-- C8 counterexample: `reset(config)` does not reproduce fresh construction
for every config.  With `config = { optimalTemp: 310 }` (no `initialTemp`),
the reset forces the temperature to `params.initialTemp || this.optimalTemp`
= 310 K, while a fresh construction with the same config primes the
temperature to the `initialTemp` default 295 K. -/
theorem reset_vs_fresh_counterexample :
    ((DaisyworldModel.construct {}).reset
        { optimalTemp := some 310 }).planet.temperature = 310 ∧
      (DaisyworldModel.construct
        { optimalTemp := some 310 }).planet.temperature = 295 ∧
      ((310 : ℚ) ≠ 295) := by
  refine ⟨?_, rfl, by norm_num⟩
  rw [reset_temperature]
  rfl

/-- C8 amended: whenever the configuration's `initialTemp` is present and
nonzero (so the `params.initialTemp || this.optimalTemp` fallback of `reset`
selects the same value the constructor's priming pass forces),
`reset(config)` yields exactly the state of a fresh construction with the
same config — every engine-owned field, the planet and both daisies included
— while preserving the caller's subscriber list unchanged.  When
`initialTemp` is absent (or zero, a JS falsy), reset instead forces the
configured optimal temperature and can differ from fresh construction. -/
theorem reset_eq_fresh_construction (m : DaisyworldModel) (p : Params) (v : ℚ)
    (hp : p.initialTemp = some v) (hv : v ≠ 0) :
    m.reset p =
      { DaisyworldModel.construct p with
          timeStepCallbacks := m.timeStepCallbacks } := by
  have hres : jsOr p.initialTemp ((DaisyworldModel.construct p).optimalTemp) =
      p.initialTemp.getD 295 := by
    rw [hp]
    simp [jsOr, hv]
  simp only [DaisyworldModel.reset]
  rw [hres]
  rfl

/-- Witness for the amended C8 theorem at `initialTemp = 300`. -/
theorem reset_eq_fresh_construction_witness :
    ((Params.mk none none (some 300) none none none none none none none).initialTemp =
        some 300 ∧ ((300 : ℚ) ≠ 0)) ∧
      ((DaisyworldModel.construct {}).onTimeStep 5).reset
          (Params.mk none none (some 300) none none none none none none none) =
        { DaisyworldModel.construct
            (Params.mk none none (some 300) none none none none none none none) with
            timeStepCallbacks :=
              ((DaisyworldModel.construct {}).onTimeStep 5).timeStepCallbacks } :=
  ⟨⟨rfl, by norm_num⟩,
    reset_eq_fresh_construction ((DaisyworldModel.construct {}).onTimeStep 5)
      (Params.mk none none (some 300) none none none none none none none) 300 rfl
      (by norm_num)⟩

/-! ## C9: event delivery -/

/-- C9: a single `step()` call produces exactly one invocation per registered
callback, in subscription order (the trace equals the subscriber list mapped
to one `(callback, payload)` pair each, all with the same payload);
`onTimeStep` appends to the subscriber list, so list order is subscription
order; and the payload's `time` field is the post-increment step counter —
in particular the first step after construction delivers `time = 1`. -/
theorem event_delivery (m : DaisyworldModel) (o : Oracle) (p : Params) (cb : ℕ) :
    (DaisyworldModel.step o m).2 =
        m.timeStepCallbacks.map
          (fun c => (c, DaisyworldModel.mkTimeStepData (DaisyworldModel.stepModel o m))) ∧
      (DaisyworldModel.step o m).2.map Prod.fst = m.timeStepCallbacks ∧
      (DaisyworldModel.mkTimeStepData (DaisyworldModel.stepModel o m)).time =
        m.time + 1 ∧
      (m.onTimeStep cb).timeStepCallbacks = m.timeStepCallbacks ++ [cb] ∧
      (DaisyworldModel.mkTimeStepData
        (DaisyworldModel.stepModel o (DaisyworldModel.construct p))).time = 1 := by
  refine ⟨rfl, ?_, rfl, rfl, rfl⟩
  simp only [DaisyworldModel.step, DaisyworldModel.notifyTimeStep, List.map_map]
  have hcomp : (Prod.fst ∘ fun c : ℕ =>
      (c, DaisyworldModel.mkTimeStepData (DaisyworldModel.stepModel o m))) = id := rfl
  rw [hcomp, List.map_id]
  rfl

end Daisyworld
